import Mathlib

/-!
Shallow embedding of the transaction-confirmation / fee-estimation core of the
apex-sdk repository, translated from
`src/apex-sdk-substrate/src/fee_estimator.rs` and
`src/apex-sdk-substrate/src/monitor.rs`.

Modelling conventions:
- machine integers (`u128`, `u64`, `u32`, `usize`) are modelled as `ℕ`
  (the claims under study never exercise wrap-around);
- `f64` values are modelled as exact rationals `ℚ`; the Rust cast
  `expr as u128` on an `f64` is truncation toward zero, saturating at the
  type bounds (`f64_as_u128` below);
- `SystemTime` / `Instant` are modelled as a `ℕ` number of seconds, passed
  explicitly where the code calls `now()`;
- `Result<T>` becomes `Except String T`; a failed subcall becomes an
  `Option`/`none` argument at the point where the code pattern-matches on it;
- `VecDeque` and `HashMap` (iterated as a whole) become lists; the `HashMap`
  of pending watches is an association list with pairwise-distinct keys.
-/

namespace ApexSdk

/-- Fee strategy for transaction prioritization (`FeeStrategy` in
fee_estimator.rs). -/
inductive FeeStrategy
  | Fast
  | Normal
  | Slow
  deriving DecidableEq

/-- Strategy fee multiplier (`FeeStrategy::multiplier`). -/
def FeeStrategy.multiplier : FeeStrategy → ℚ
  | FeeStrategy.Fast => 1.5
  | FeeStrategy.Normal => 1.2
  | FeeStrategy.Slow => 1.0

/-- Strategy tip in Planck (`FeeStrategy::tip`). -/
def FeeStrategy.tip : FeeStrategy → ℕ
  | FeeStrategy.Fast => 1000000
  | FeeStrategy.Normal => 100000
  | FeeStrategy.Slow => 0

/-- Network congestion level (`CongestionLevel` in fee_estimator.rs). -/
inductive CongestionLevel
  | Low
  | Medium
  | High
  deriving DecidableEq

/-- Network congestion snapshot (`NetworkCongestion` in fee_estimator.rs);
`last_updated` is the `SystemTime` in seconds. -/
structure NetworkCongestion where
  level : CongestionLevel
  avg_block_fullness : ℚ
  avg_fee : ℕ
  blocks_analyzed : ℕ
  last_updated : ℕ
  deriving DecidableEq

/-- Constructor `NetworkCongestion::new`; `now` models the
`std::time::SystemTime::now()` call. -/
def NetworkCongestion.new (avg_block_fullness : ℚ) (avg_fee : ℕ)
    (blocks_analyzed : ℕ) (now : ℕ) : NetworkCongestion :=
  let level :=
    if avg_block_fullness > 0.8 then CongestionLevel.High
    else if avg_block_fullness > 0.5 then CongestionLevel.Medium
    else CongestionLevel.Low
  { level := level
    avg_block_fullness := avg_block_fullness
    avg_fee := avg_fee
    blocks_analyzed := blocks_analyzed
    last_updated := now }

/-- Congestion fee multiplier (`NetworkCongestion::multiplier`). -/
def NetworkCongestion.multiplier (c : NetworkCongestion) : ℚ :=
  match c.level with
  | CongestionLevel.Low => 1.0
  | CongestionLevel.Medium => 1.1
  | CongestionLevel.High => 1.3

/-- Transaction weight information (`Weight` in fee_estimator.rs). -/
structure Weight where
  ref_time : ℕ
  proof_size : ℕ
  deriving DecidableEq

/-- Constructor `Weight::new`. -/
def Weight.new (ref_time proof_size : ℕ) : Weight :=
  { ref_time := ref_time, proof_size := proof_size }

/-- Constructor `Weight::from_parts`. -/
def Weight.from_parts (ref_time proof_size : ℕ) : Weight :=
  Weight.new ref_time proof_size

/-- Weight V2 structure returned by the runtime (`WeightV2`). -/
structure WeightV2 where
  ref_time : ℕ
  proof_size : ℕ
  deriving DecidableEq

/-- Dispatch class (`DispatchClass` in fee_estimator.rs). -/
inductive DispatchClass
  | Normal
  | Operational
  | Mandatory
  deriving DecidableEq

/-- Runtime dispatch info from TransactionPaymentApi (`RuntimeDispatchInfo`);
the Rust field `class` is renamed `dispatch_class` because `class` is a Lean
keyword. -/
structure RuntimeDispatchInfo where
  weight : WeightV2
  dispatch_class : DispatchClass
  partial_fee : ℕ
  deriving DecidableEq

/-- Fee estimation result with detailed breakdown (`FeeEstimate`). -/
structure FeeEstimate where
  total_fee : ℕ
  base_fee : ℕ
  length_fee : ℕ
  weight_fee : ℕ
  tip : ℕ
  strategy : FeeStrategy
  congestion : NetworkCongestion
  weight : Option Weight
  deriving DecidableEq

/-- Constructor `FeeEstimate::new` (fee_estimator.rs lines 148-170):
stores `total_fee = base_fee + length_fee + weight_fee + tip`. -/
def FeeEstimate.new (base_fee length_fee weight_fee tip : ℕ)
    (strategy : FeeStrategy) (congestion : NetworkCongestion)
    (weight : Option Weight) : FeeEstimate :=
  { total_fee := base_fee + length_fee + weight_fee + tip
    base_fee := base_fee
    length_fee := length_fee
    weight_fee := weight_fee
    tip := tip
    strategy := strategy
    congestion := congestion
    weight := weight }

/-- Rust `expr as u128` applied to an `f64` value (modelled as an exact
rational): truncation toward zero, saturating at the bounds of `u128`. -/
def f64_as_u128 (x : ℚ) : ℕ :=
  min (Int.toNat ⌊x⌋) (2 ^ 128 - 1)

/-- Heuristic fallback fee when the runtime query fails
(`DynamicFeeEstimator::calculate_fallback_fee`, fee_estimator.rs lines
403-417); a `&[u8]` is modelled as a list of bytes, of which only the length
is used. -/
def calculate_fallback_fee (extrinsic_bytes : List ℕ) : ℕ :=
  let base_fee := 100000
  let per_byte_fee := 1000
  let size_fee := extrinsic_bytes.length * per_byte_fee
  let weight_estimate : ℕ :=
    if extrinsic_bytes.length > 200 then 500000
    else if extrinsic_bytes.length > 100 then 200000
    else 100000
  base_fee + size_fee + weight_estimate

/-- Pure model of the success path of `DynamicFeeEstimator::estimate_fee`
(fee_estimator.rs lines 315-381): `congestion` is the cached snapshot read
after `update_congestion_if_needed`, and `dispatch_info` is the outcome of
`query_fee_details` (`none` models a query that failed, triggering the
fallback). -/
def estimate_fee (extrinsic_bytes : List ℕ) (strategy : FeeStrategy)
    (congestion : NetworkCongestion)
    (dispatch_info : Option RuntimeDispatchInfo) : FeeEstimate :=
  let base_and_weight : ℕ × Option Weight :=
    match dispatch_info with
    | some info =>
        (info.partial_fee,
         some (Weight.from_parts info.weight.ref_time info.weight.proof_size))
    | none => (calculate_fallback_fee extrinsic_bytes, none)
  let base_fee := base_and_weight.1
  let weight_opt := base_and_weight.2
  let length_fee := extrinsic_bytes.length * 1000
  let weight_fee :=
    match weight_opt with
    | some w => w.ref_time / 1000000
    | none => 0
  let strategy_multiplier := strategy.multiplier
  let congestion_multiplier := congestion.multiplier
  let combined_multiplier := strategy_multiplier * congestion_multiplier
  let adjusted_base := f64_as_u128 ((base_fee : ℚ) * combined_multiplier)
  let tip := strategy.tip
  FeeEstimate.new adjusted_base length_fee weight_fee tip strategy congestion
    weight_opt

/-- Fee estimation accuracy metric (`FeeAccuracyMetric` in fee_estimator.rs);
`percentage_error` is an `f64` in the source, modelled as an exact rational. -/
structure FeeAccuracyMetric where
  estimated : ℕ
  actual : ℕ
  absolute_error : ℤ
  percentage_error : ℚ
  timestamp : ℕ
  deriving DecidableEq

/-- Constructor `FeeAccuracyMetric::new` (fee_estimator.rs lines 243-261);
`now` models the `SystemTime::now()` call. -/
def FeeAccuracyMetric.new (estimated actual now : ℕ) : FeeAccuracyMetric :=
  let absolute_error : ℤ := (estimated : ℤ) - (actual : ℤ)
  let percentage_error : ℚ :=
    if actual > 0 then ((absolute_error : ℚ) / (actual : ℚ)) * 100 else 0
  { estimated := estimated
    actual := actual
    absolute_error := absolute_error
    percentage_error := percentage_error
    timestamp := now }

/-- Fee estimation accuracy statistics (`FeeAccuracyStats`). -/
structure FeeAccuracyStats where
  sample_count : ℕ
  avg_absolute_error : ℚ
  avg_percentage_error : ℚ
  max_percentage_error : ℚ
  min_percentage_error : ℚ
  deriving DecidableEq

/-- The eviction loop of `DynamicFeeEstimator::record_actual_fee`
(fee_estimator.rs lines 592-594): `while metrics.len() > self.max_metrics
{ metrics.pop_front(); }`; the `VecDeque` is modelled as a list whose head is
its front. -/
def trim_metrics (max_metrics : ℕ) (metrics : List FeeAccuracyMetric) :
    List FeeAccuracyMetric :=
  if _h : metrics.length > max_metrics then
    trim_metrics max_metrics metrics.tail
  else metrics
termination_by metrics.length
decreasing_by simp only [List.length_tail]; omega

/-- State transition of `DynamicFeeEstimator::record_actual_fee`
(fee_estimator.rs lines 582-595) on the accuracy window: push the new metric
at the back, then evict from the front while over capacity. -/
def record_actual_fee (max_metrics : ℕ) (metrics : List FeeAccuracyMetric)
    (estimated actual now : ℕ) : List FeeAccuracyMetric :=
  trim_metrics max_metrics (metrics ++ [FeeAccuracyMetric.new estimated actual now])

/-- Iterated `record_actual_fee`: the effect of a sequence of calls, one per
`(estimated, actual, now)` triple, on the accuracy window. -/
def record_actual_fee_seq (max_metrics : ℕ) (inputs : List (ℕ × ℕ × ℕ))
    (metrics : List FeeAccuracyMetric) : List FeeAccuracyMetric :=
  inputs.foldl (fun w i => record_actual_fee max_metrics w i.1 i.2.1 i.2.2) metrics

/-- Largest finite `f64` value (`f64::MAX`), exact. -/
def f64MAX : ℚ := 2 ^ 1024 - 2 ^ 971

/-- Smallest finite `f64` value (`f64::MIN`), exact. -/
def f64MIN : ℚ := -(2 ^ 1024 - 2 ^ 971)

/-- Loop body of the statistics pass in
`DynamicFeeEstimator::get_accuracy_stats` (fee_estimator.rs lines 610-615);
the accumulator is `(total_abs_error, total_pct_error, max_pct_error,
min_pct_error)`. -/
def accuracy_stats_step (a : ℚ × ℚ × ℚ × ℚ) (m : FeeAccuracyMetric) :
    ℚ × ℚ × ℚ × ℚ :=
  (a.1 + |(m.absolute_error : ℚ)|,
   a.2.1 + |m.percentage_error|,
   max a.2.2.1 |m.percentage_error|,
   min a.2.2.2 |m.percentage_error|)

/-- Model of `DynamicFeeEstimator::get_accuracy_stats` (fee_estimator.rs
lines 598-626) as a function of the current accuracy window. -/
def get_accuracy_stats (metrics : List FeeAccuracyMetric) :
    Option FeeAccuracyStats :=
  if metrics.isEmpty then none
  else
    let acc := metrics.foldl accuracy_stats_step (0, 0, f64MIN, f64MAX)
    let count := metrics.length
    some
      { sample_count := count
        avg_absolute_error := acc.1 / (count : ℚ)
        avg_percentage_error := acc.2.1 / (count : ℚ)
        max_percentage_error := acc.2.2.1
        min_percentage_error := acc.2.2.2 }

/-- Loop body of the block-sampling loop in
`DynamicFeeEstimator::update_congestion` (fee_estimator.rs lines 436-448);
the accumulator is `(total_fullness, total_fees, blocks_analyzed)` and each
`r` is the outcome of `analyze_block_congestion` for one sampled block
(`none` models an `Err`, which is logged and skipped). -/
def congestion_step (a : ℚ × ℕ × ℕ) (r : Option (ℚ × ℕ)) : ℚ × ℕ × ℕ :=
  match r with
  | some fa => (a.1 + fa.1, a.2.1 + fa.2, a.2.2 + 1)
  | none => a

/-- Pure model of `DynamicFeeEstimator::update_congestion` (fee_estimator.rs
lines 420-466) after the initial latest-block fetch succeeded:
`block_results` lists the per-block outcomes of `analyze_block_congestion`,
and `now` models `SystemTime::now()` inside `NetworkCongestion::new`.
Returns the new cached snapshot together with the `Result<()>` of the call. -/
def update_congestion (congestion : NetworkCongestion)
    (block_results : List (Option (ℚ × ℕ))) (now : ℕ) :
    NetworkCongestion × Except String Unit :=
  let acc := block_results.foldl congestion_step (0, 0, 0)
  let total_fullness := acc.1
  let total_fees := acc.2.1
  let blocks_analyzed := acc.2.2
  if blocks_analyzed > 0 then
    let avg_fullness := total_fullness / (blocks_analyzed : ℚ)
    let avg_fee := total_fees / blocks_analyzed
    (NetworkCongestion.new avg_fullness avg_fee blocks_analyzed now,
     Except.ok ())
  else (congestion, Except.ok ())

/-- Modelled from the spec: `ConfirmationStrategy` is defined in the
`apex-sdk-core` crate, which is not part of this source tree. The spec gives
the tagged variants `Immediate`, `Finalized { timeout_secs }` and
`BlockConfirmations { confirmations : u32, timeout_secs : u64 }`, which match
the exhaustive pattern matches in monitor.rs. -/
inductive ConfirmationStrategy
  | Immediate
  | Finalized (timeout_secs : ℕ)
  | BlockConfirmations (confirmations : ℕ) (timeout_secs : ℕ)
  deriving DecidableEq

/-- Modelled from the spec: `TransactionStatus` is defined in the
`apex-sdk-types` crate, which is not part of this source tree. The spec gives
the variants `Pending`, `Finalized { block_number, block_hash,
confirmations }` and `Failed { reason }`; the constructors mirror the call
sites in monitor.rs, `TransactionStatus::finalized(hash, block_number,
block_hash, None, None, Some(confirmations))` (the two optional fields are
always passed as `None` by the monitor) and
`TransactionStatus::failed(hash, reason)`. -/
inductive TransactionStatus
  | pending (hash : String)
  | finalized (hash : String) (block_number : ℕ) (block_hash : String)
      (extra1 : Option Unit) (extra2 : Option Unit)
      (confirmations : Option ℕ)
  | failed (hash : String) (reason : String)
  deriving DecidableEq

/-- A decoded chain event as consumed by monitor.rs, exposing
`pallet_name()` and `variant_name()`. -/
structure Event where
  pallet_name : String
  variant_name : String
  deriving DecidableEq

/-- Handle for a transaction being watched (`TxWatchHandle` in monitor.rs);
`submitted_at` is the `Instant` in seconds and the single-use result channel
is left implicit (delivery is modelled as an output of the step functions). -/
structure TxWatchHandle where
  submitted_at : ℕ
  strategy : ConfirmationStrategy
  first_seen_block : Option ℕ
  deriving DecidableEq

/-- Per-extrinsic success/failure determination inside
`TransactionMonitor::process_finalized_block` (monitor.rs lines 162-180):
scan the extrinsic's events for `System::ExtrinsicSuccess` /
`System::ExtrinsicFailed`; `events = none` models `ext_details.events()`
returning `Err`. Yields the `(success, error_msg)` pair stored in
`block_tx_hashes`. -/
def extrinsic_event_step (block_number : ℕ) (acc : Bool × Option String)
    (event : Event) : Bool × Option String :=
  if event.pallet_name = "System" then
    if event.variant_name = "ExtrinsicSuccess" then (true, acc.2)
    else if event.variant_name = "ExtrinsicFailed" then
      (acc.1, some ("Extrinsic failed at block " ++ toString block_number))
    else acc
  else acc

/-- Scan of one extrinsic's events (monitor.rs lines 162-180), folding
`extrinsic_event_step` over the event list starting from
`(success := false, error_msg := None)`. -/
def extrinsic_status (block_number : ℕ) (events : Option (List Event)) :
    Bool × Option String :=
  match events with
  | some evs => evs.foldl (extrinsic_event_step block_number) (false, none)
  | none => (false, some "Failed to fetch events")

/-- Completion test of the confirmation strategy
(`TransactionMonitor::process_finalized_block`, monitor.rs lines 205-212). -/
def watch_is_complete (strategy : ConfirmationStrategy)
    (confirmations : ℕ) : Bool :=
  match strategy with
  | ConfirmationStrategy.Immediate => true
  | ConfirmationStrategy.Finalized _ => true
  | ConfirmationStrategy.BlockConfirmations required _ =>
      decide (confirmations ≥ required)

/-- One iteration of the per-watch loop of
`TransactionMonitor::process_finalized_block` (monitor.rs lines 191-248):
`lookup` is `block_tx_hashes.get(tx_hash)` for this watch, and the result is
the updated handle together with the completion status delivered on the
watch's channel, if any. The `confirmations` count uses truncated natural
subtraction, the model of `u64::saturating_sub`. -/
def process_watch (block_number : ℕ) (block_hash : String) (tx_hash : String)
    (lookup : Option (Bool × Option String)) (handle : TxWatchHandle) :
    TxWatchHandle × Option TransactionStatus :=
  let handle :=
    if lookup.isSome && handle.first_seen_block.isNone then
      { handle with first_seen_block := some block_number }
    else handle
  match handle.first_seen_block with
  | none => (handle, none)
  | some first_seen =>
      let confirmations := block_number - first_seen
      let is_complete := watch_is_complete handle.strategy confirmations
      if is_complete then
        let status :=
          match lookup with
          | some p =>
              if p.1 then
                TransactionStatus.finalized tx_hash first_seen block_hash
                  none none (some confirmations)
              else
                TransactionStatus.failed tx_hash (p.2.getD "Unknown error")
          | none =>
              TransactionStatus.finalized tx_hash first_seen block_hash
                none none (some confirmations)
        (handle, some status)
      else (handle, none)

/-- Maximum time to keep a transaction in the watch list, in seconds
(`MAX_WATCH_DURATION` in monitor.rs). -/
def MAX_WATCH_DURATION : ℕ := 300

/-- The timeout read from a watch's strategy in
`TransactionMonitor::cleanup_expired_transactions` (monitor.rs lines
278-282). -/
def watch_timeout_secs : ConfirmationStrategy → ℕ
  | ConfirmationStrategy.BlockConfirmations _ timeout_secs => timeout_secs
  | ConfirmationStrategy.Finalized timeout_secs => timeout_secs
  | ConfirmationStrategy.Immediate => 0

/-- Expiry test of the cleanup loop (monitor.rs line 271):
`now.duration_since(handle.submitted_at) > MAX_WATCH_DURATION`; the
`Instant` clock is monotone, so the duration is `now - submitted_at`. -/
def is_expired (now : ℕ) (handle : TxWatchHandle) : Bool :=
  decide (now - handle.submitted_at > MAX_WATCH_DURATION)

/-- Model of `TransactionMonitor::cleanup_expired_transactions` (monitor.rs
lines 263-299): the pending `HashMap` is an association list with distinct
keys, so collecting the expired hashes and then removing each of them is the
same as partitioning on the expiry test. Returns the remaining pending map
and the list of `(hash, status)` deliveries sent on the expired watches'
channels. -/
def cleanup_expired_transactions (now : ℕ)
    (pending : List (String × TxWatchHandle)) :
    List (String × TxWatchHandle) × List (String × TransactionStatus) :=
  (pending.filter (fun p => !is_expired now p.2),
   (pending.filter (fun p => is_expired now p.2)).map
     (fun p =>
       (p.1,
        TransactionStatus.failed p.1
          ("Timeout after " ++ toString (watch_timeout_secs p.2.strategy) ++
            " seconds"))))

/-! Theorems settling the claims. -/

/-- C8: for every `FeeEstimate` built by `FeeEstimate::new` (the only way the
system produces one), the stored `total_fee` field equals
`base_fee + length_fee + weight_fee + tip`, where `base_fee` is the already
strategy/congestion-adjusted base. -/
theorem C8_total_fee_invariant (base_fee length_fee weight_fee tip : ℕ)
    (strategy : FeeStrategy) (congestion : NetworkCongestion)
    (weight : Option Weight) :
    (FeeEstimate.new base_fee length_fee weight_fee tip strategy congestion
        weight).total_fee
      = base_fee + length_fee + weight_fee + tip := rfl

/-- C7: whenever the runtime fee query fails, the base fee used by
`estimate_fee` is the fallback `100_000 + len × 1_000 + weight_bucket(len)`
with bucket `500_000` for `len > 200`, `200_000` for `len > 100`, else
`100_000`; in this path the returned estimate carries no `Weight`, its
`weight_fee` component is `0`, and its stored base is the multiplier-adjusted
fallback. -/
theorem C7_fallback_fee (extrinsic_bytes : List ℕ) (strategy : FeeStrategy)
    (congestion : NetworkCongestion) :
    calculate_fallback_fee extrinsic_bytes
        = 100000 + extrinsic_bytes.length * 1000 +
            (if extrinsic_bytes.length > 200 then 500000
             else if extrinsic_bytes.length > 100 then 200000
             else 100000)
    ∧ (estimate_fee extrinsic_bytes strategy congestion none).weight = none
    ∧ (estimate_fee extrinsic_bytes strategy congestion none).weight_fee = 0
    ∧ (estimate_fee extrinsic_bytes strategy congestion none).base_fee
        = f64_as_u128 ((calculate_fallback_fee extrinsic_bytes : ℚ) *
            (strategy.multiplier * congestion.multiplier)) :=
  ⟨rfl, rfl, rfl, rfl⟩

/-- C1 as stated is false: with the `Normal` strategy (multiplier 1.2) under
`Medium` congestion (multiplier 1.1) and a runtime-reported partial fee of 5,
the combined multiplier is 1.32, the product is 6.6, and the code truncates
it to 6 while rounding would give 7: the total is 100006, not
`round(base × combined_multiplier) + length_fee + weight_fee + tip = 100007`. -/
theorem C1_counterexample :
    (estimate_fee [] FeeStrategy.Normal (NetworkCongestion.new 0.6 200000 10 0)
        (some ⟨⟨0, 0⟩, DispatchClass.Normal, 5⟩)).total_fee
      ≠ (round ((5 : ℚ) * (FeeStrategy.Normal.multiplier *
            (NetworkCongestion.new 0.6 200000 10 0).multiplier))).toNat
          + 0 + 0 + FeeStrategy.Normal.tip := by
  have hm : FeeStrategy.Normal.multiplier *
      (NetworkCongestion.new 0.6 200000 10 0).multiplier = 33 / 25 := by
    norm_num [FeeStrategy.multiplier, NetworkCongestion.multiplier,
      NetworkCongestion.new]
  have h1 : (estimate_fee [] FeeStrategy.Normal
      (NetworkCongestion.new 0.6 200000 10 0)
      (some ⟨⟨0, 0⟩, DispatchClass.Normal, 5⟩)).total_fee = 100006 := by
    simp only [estimate_fee, FeeEstimate.new, Weight.from_parts, Weight.new,
      FeeStrategy.tip, List.length_nil, f64_as_u128]
    rw [hm]
    norm_num
    decide
  have h2 : (round ((5 : ℚ) * (FeeStrategy.Normal.multiplier *
      (NetworkCongestion.new 0.6 200000 10 0).multiplier))).toNat
        + 0 + 0 + FeeStrategy.Normal.tip = 100007 := by
    rw [hm]
    rw [show round ((5 : ℚ) * (33 / 25)) = 7 from by rw [round_eq] ; norm_num]
    decide
  rw [h1, h2]
  decide

/-- C1 (amended): for every extrinsic byte string, fee strategy, congestion
snapshot and runtime-query outcome, the total fee returned by `estimate_fee`
equals the truncation toward zero (Rust's saturating `as u128` cast, not
rounding to nearest) of `base × combined_multiplier`, plus the length fee,
the weight fee and the tip, where the base comes from the runtime query or
the fallback and
`combined_multiplier = strategy.multiplier() × congestion.multiplier()`. -/
theorem C1_total_fee_formula (extrinsic_bytes : List ℕ)
    (strategy : FeeStrategy) (congestion : NetworkCongestion)
    (dispatch_info : Option RuntimeDispatchInfo) :
    (estimate_fee extrinsic_bytes strategy congestion dispatch_info).total_fee
      = f64_as_u128
          (((match dispatch_info with
             | some info => info.partial_fee
             | none => calculate_fallback_fee extrinsic_bytes) : ℕ) *
            (strategy.multiplier * congestion.multiplier))
        + extrinsic_bytes.length * 1000
        + (match dispatch_info with
           | some info => info.weight.ref_time / 1000000
           | none => 0)
        + strategy.tip := by
  cases dispatch_info <;> rfl

/-- C4: the congestion level built from an average block fullness `f` is
`High` exactly when `f > 0.8`, `Medium` exactly when `0.5 < f ≤ 0.8`, and
`Low` otherwise (both boundaries are exclusive lower bounds); the multiplier
is 1.0/1.1/1.3 for Low/Medium/High; and the level depends on no input other
than `f`. -/
theorem C4_congestion_classification (f : ℚ) (fee n now fee2 n2 now2 : ℕ) :
    ((NetworkCongestion.new f fee n now).level = CongestionLevel.High ↔
        f > 0.8)
    ∧ ((NetworkCongestion.new f fee n now).level = CongestionLevel.Medium ↔
        (0.5 < f ∧ f ≤ 0.8))
    ∧ ((NetworkCongestion.new f fee n now).level = CongestionLevel.Low ↔
        f ≤ 0.5)
    ∧ (NetworkCongestion.new f fee n now).multiplier
        = (if f > 0.8 then 1.3 else if f > 0.5 then 1.1 else 1.0)
    ∧ (NetworkCongestion.new f fee n now).level
        = (NetworkCongestion.new f fee2 n2 now2).level := by
  unfold NetworkCongestion.new NetworkCongestion.multiplier
  split_ifs with h1 h2 <;> refine ⟨?_, ?_, ?_, ?_, ?_⟩ <;>
    simp_all <;> linarith

/-- C4 witness: concrete instance at fullness 0.9 (High, multiplier 1.3). -/
theorem C4_congestion_classification_witness :
    ((NetworkCongestion.new 0.9 1 2 3).level = CongestionLevel.High ↔
        (0.9 : ℚ) > 0.8)
    ∧ ((NetworkCongestion.new 0.9 1 2 3).level = CongestionLevel.Medium ↔
        ((0.5 : ℚ) < 0.9 ∧ (0.9 : ℚ) ≤ 0.8))
    ∧ ((NetworkCongestion.new 0.9 1 2 3).level = CongestionLevel.Low ↔
        (0.9 : ℚ) ≤ 0.5)
    ∧ (NetworkCongestion.new 0.9 1 2 3).multiplier
        = (if (0.9 : ℚ) > 0.8 then 1.3
           else if (0.9 : ℚ) > 0.5 then 1.1 else 1.0)
    ∧ (NetworkCongestion.new 0.9 1 2 3).level
        = (NetworkCongestion.new 0.9 4 5 6).level :=
  C4_congestion_classification 0.9 1 2 3 4 5 6

/-- C9: the monitor evaluates the completion test for `Immediate` and for
`Finalized{timeout_secs}` identically: both are true as soon as the
transaction has been seen in a finalized block, and the per-watch processing
step delivers the same status under either strategy, for every block and
lookup outcome. -/
theorem C9_immediate_eq_finalized (t conf block_number submitted_at : ℕ)
    (block_hash tx_hash : String) (lookup : Option (Bool × Option String))
    (first_seen : Option ℕ) :
    watch_is_complete ConfirmationStrategy.Immediate conf
        = watch_is_complete (ConfirmationStrategy.Finalized t) conf
    ∧ watch_is_complete ConfirmationStrategy.Immediate conf = true
    ∧ (process_watch block_number block_hash tx_hash lookup
          ⟨submitted_at, ConfirmationStrategy.Immediate, first_seen⟩).2
        = (process_watch block_number block_hash tx_hash lookup
          ⟨submitted_at, ConfirmationStrategy.Finalized t, first_seen⟩).2 := by
  refine ⟨rfl, rfl, ?_⟩
  cases lookup <;> cases first_seen <;> rfl

/-- C10: the confirmation count for a completed watch is computed with
saturating subtraction (`block_number - first_seen`, floored at 0): the
delivered status carries `block_number - first_seen` as its confirmation
count, and whenever the finalized stream delivers a block whose number does
not exceed the watch's `first_seen_block` the count is 0 — in particular the
first block in which the transaction is seen counts as 0 confirmations. -/
theorem C10_saturating_confirmations
    (block_number first_seen submitted_at : ℕ) (block_hash tx_hash : String) :
    (process_watch block_number block_hash tx_hash (some (true, none))
        ⟨submitted_at, ConfirmationStrategy.Immediate, some first_seen⟩).2
      = some (TransactionStatus.finalized tx_hash first_seen block_hash
          none none (some (block_number - first_seen)))
    ∧ (block_number ≤ first_seen → block_number - first_seen = 0) := by
  exact ⟨rfl, fun h => by omega⟩

/-- C10 witness: a block numbered 3 arriving below `first_seen_block = 7`
yields 0 confirmations. -/
theorem C10_saturating_confirmations_witness :
    (process_watch 3 "0xb" "0xt" (some (true, none))
        ⟨0, ConfirmationStrategy.Immediate, some 7⟩).2
      = some (TransactionStatus.finalized "0xt" 7 "0xb" none none
          (some (3 - 7)))
    ∧ 3 - 7 = 0 :=
  ⟨(C10_saturating_confirmations 3 7 0 "0xb" "0xt").1,
   (C10_saturating_confirmations 3 7 0 "0xb" "0xt").2 (by decide)⟩


theorem trim_metrics_eq_drop (max_metrics : ℕ) (metrics : List FeeAccuracyMetric) :
    trim_metrics max_metrics metrics
      = metrics.drop (metrics.length - max_metrics) := by
  induction metrics with
  | nil => simp [trim_metrics]
  | cons a l ih =>
    rw [trim_metrics]
    by_cases h : (a :: l).length > max_metrics
    · rw [dif_pos h, List.tail_cons, ih]
      have h2 : (a :: l).length - max_metrics = (l.length - max_metrics) + 1 := by
        simp only [List.length_cons]
        simp only [List.length_cons] at h
        omega
      rw [h2, List.drop_succ_cons]
    · rw [dif_neg h]
      have h2 : (a :: l).length - max_metrics = 0 := by
        simp only [List.length_cons]
        simp only [List.length_cons] at h
        omega
      rw [h2, List.drop_zero]

theorem trim_metrics_length_le (max_metrics : ℕ)
    (metrics : List FeeAccuracyMetric) :
    (trim_metrics max_metrics metrics).length ≤ max_metrics := by
  rw [trim_metrics_eq_drop, List.length_drop]
  omega

theorem trim_metrics_append (max_metrics : ℕ)
    (a b : List FeeAccuracyMetric) :
    trim_metrics max_metrics (trim_metrics max_metrics a ++ b)
      = trim_metrics max_metrics (a ++ b) := by
  simp only [trim_metrics_eq_drop]
  rw [List.drop_append_eq_append_drop, List.drop_append_eq_append_drop,
    List.drop_drop]
  simp only [List.length_append, List.length_drop]
  congr 1
  · congr 1
    omega
  · congr 1
    omega

theorem record_actual_fee_seq_eq (max_metrics : ℕ) (inputs : List (ℕ × ℕ × ℕ))
    (init : List FeeAccuracyMetric) (h : init.length ≤ max_metrics) :
    record_actual_fee_seq max_metrics inputs init
      = trim_metrics max_metrics
          (init ++ inputs.map (fun i => FeeAccuracyMetric.new i.1 i.2.1 i.2.2)) := by
  induction inputs generalizing init with
  | nil =>
    simp only [record_actual_fee_seq, List.foldl_nil, List.map_nil,
      List.append_nil, trim_metrics_eq_drop]
    rw [Nat.sub_eq_zero_of_le h, List.drop_zero]
  | cons x xs ih =>
    simp only [record_actual_fee_seq, List.foldl_cons, List.map_cons]
    have step : List.foldl
        (fun w i => record_actual_fee max_metrics w i.1 i.2.1 i.2.2)
        (record_actual_fee max_metrics init x.1 x.2.1 x.2.2) xs
        = record_actual_fee_seq max_metrics xs
            (record_actual_fee max_metrics init x.1 x.2.1 x.2.2) := rfl
    have hlen : (record_actual_fee max_metrics init x.1 x.2.1 x.2.2).length
        ≤ max_metrics := by
      rw [record_actual_fee]
      exact trim_metrics_length_le _ _
    rw [step, ih _ hlen, record_actual_fee, trim_metrics_append,
      List.append_assoc]
    rfl

theorem C3_accuracy_window_fifo (max_metrics k : ℕ)
    (inputs : List (ℕ × ℕ × ℕ)) (metrics : List FeeAccuracyMetric)
    (h : inputs.length = max_metrics + k) :
    (record_actual_fee_seq max_metrics inputs []).length = max_metrics
    ∧ record_actual_fee_seq max_metrics inputs []
        = (inputs.map (fun i => FeeAccuracyMetric.new i.1 i.2.1 i.2.2)).drop k
    ∧ (get_accuracy_stats metrics = none ↔ metrics = []) := by
  have hrec := record_actual_fee_seq_eq max_metrics inputs [] (by simp)
  rw [List.nil_append, trim_metrics_eq_drop, List.length_map, h] at hrec
  refine ⟨?_, ?_, ?_⟩
  · rw [hrec, List.length_drop, List.length_map, h]
    omega
  · rw [hrec]
    congr 1
    omega
  · simp only [get_accuracy_stats]
    split_ifs with h2
    · simp only [List.isEmpty_iff] at h2
      simp [h2]
    · simp only [List.isEmpty_iff] at h2
      simp [h2]

theorem C3_accuracy_window_fifo_witness :
    (record_actual_fee_seq 1 [(2, 1, 0), (3, 1, 0)] []).length = 1
    ∧ record_actual_fee_seq 1 [(2, 1, 0), (3, 1, 0)] []
        = ([(2, 1, 0), (3, 1, 0)].map
            (fun i => FeeAccuracyMetric.new i.1 i.2.1 i.2.2)).drop 1
    ∧ (get_accuracy_stats [] = none ↔ ([] : List FeeAccuracyMetric) = []) :=
  C3_accuracy_window_fifo 1 1 [(2, 1, 0), (3, 1, 0)] [] rfl

theorem congestion_foldl_all_none (rs : List (Option (ℚ × ℕ)))
    (a : ℚ × ℕ × ℕ) (h : ∀ r ∈ rs, r = none) :
    rs.foldl congestion_step a = a := by
  induction rs generalizing a with
  | nil => rfl
  | cons r rs ih =>
    have hr := h r (by simp)
    subst hr
    rw [List.foldl_cons]
    exact ih a (fun x hx => h x (by simp [hx]))

theorem C6_zero_blocks_frame (congestion : NetworkCongestion)
    (block_results : List (Option (ℚ × ℕ))) (now : ℕ)
    (h : ∀ r ∈ block_results, r = none) :
    update_congestion congestion block_results now
      = (congestion, Except.ok ()) := by
  unfold update_congestion
  rw [congestion_foldl_all_none _ _ h]
  rfl

theorem C6_zero_blocks_frame_witness :
    update_congestion (NetworkCongestion.new 0.3 100 10 7) [none, none] 99
      = (NetworkCongestion.new 0.3 100 10 7, Except.ok ()) :=
  C6_zero_blocks_frame (NetworkCongestion.new 0.3 100 10 7) [none, none] 99
    (by simp)

theorem extrinsic_event_step_fst (block_number : ℕ)
    (acc : Bool × Option String) (e : Event) :
    (extrinsic_event_step block_number acc e).1
      = (acc.1 || (decide (e.pallet_name = "System")
          && decide (e.variant_name = "ExtrinsicSuccess"))) := by
  unfold extrinsic_event_step
  split_ifs <;> simp_all

theorem extrinsic_status_foldl_fst (block_number : ℕ) (evs : List Event)
    (acc : Bool × Option String) :
    (evs.foldl (extrinsic_event_step block_number) acc).1
      = (acc.1 || evs.any (fun e => decide (e.pallet_name = "System")
          && decide (e.variant_name = "ExtrinsicSuccess"))) := by
  induction evs generalizing acc with
  | nil => simp
  | cons e es ih =>
    rw [List.foldl_cons, List.any_cons, ih, extrinsic_event_step_fst]
    cases h : acc.1 <;> simp [Bool.or_assoc]

theorem extrinsic_status_success_iff (block_number : ℕ) (evs : List Event) :
    ((extrinsic_status block_number (some evs)).1 = true
      ↔ ∃ e ∈ evs, e.pallet_name = "System"
          ∧ e.variant_name = "ExtrinsicSuccess") := by
  unfold extrinsic_status
  rw [extrinsic_status_foldl_fst]
  simp [List.any_eq_true]

theorem extrinsic_event_step_snd (block_number : ℕ)
    (acc : Bool × Option String) (e : Event) :
    (extrinsic_event_step block_number acc e).2
      = (if e.pallet_name = "System" ∧ e.variant_name = "ExtrinsicFailed"
         then some ("Extrinsic failed at block " ++ toString block_number)
         else acc.2) := by
  unfold extrinsic_event_step
  split_ifs <;> simp_all

theorem extrinsic_status_foldl_snd (block_number : ℕ) (evs : List Event)
    (acc : Bool × Option String) :
    (evs.foldl (extrinsic_event_step block_number) acc).2
      = (if ∃ e ∈ evs, e.pallet_name = "System"
            ∧ e.variant_name = "ExtrinsicFailed"
         then some ("Extrinsic failed at block " ++ toString block_number)
         else acc.2) := by
  induction evs generalizing acc with
  | nil => simp
  | cons e es ih =>
    rw [List.foldl_cons, ih, extrinsic_event_step_snd]
    by_cases hf : e.pallet_name = "System" ∧ e.variant_name = "ExtrinsicFailed"
    · rw [if_pos hf, ite_self, if_pos ⟨e, List.mem_cons_self e es, hf⟩]
    · rw [if_neg hf]
      have hiff : (∃ x ∈ e :: es, x.pallet_name = "System"
            ∧ x.variant_name = "ExtrinsicFailed")
          ↔ ∃ x ∈ es, x.pallet_name = "System"
            ∧ x.variant_name = "ExtrinsicFailed" := by
        simp only [List.mem_cons, or_and_right, exists_or, exists_eq_left]
        simp [hf]
      simp only [hiff]

theorem process_watch_delivered (block_number : ℕ) (block_hash tx_hash : String)
    (p : Bool × Option String) (handle : TxWatchHandle)
    (status : TransactionStatus)
    (h : (process_watch block_number block_hash tx_hash (some p) handle).2
        = some status) :
    ∃ fs conf, status
      = if p.1 then
          TransactionStatus.finalized tx_hash fs block_hash none none (some conf)
        else TransactionStatus.failed tx_hash (p.2.getD "Unknown error") := by
  obtain ⟨sa, st, fsb⟩ := handle
  cases fsb with
  | none =>
    simp only [process_watch, Option.isSome_some, Option.isNone_none,
      Bool.and_self, if_true] at h
    split at h
    · simp only [Option.some.injEq] at h
      exact ⟨block_number, block_number - block_number, h.symm⟩
    · simp at h
  | some fs =>
    simp only [process_watch, Option.isSome_some, Option.isNone_some,
      Bool.and_false, Bool.false_eq_true, if_false] at h
    split at h
    · simp only [Option.some.injEq] at h
      exact ⟨fs, block_number - fs, h.symm⟩
    · simp at h

theorem C2_completion_status (block_number : ℕ) (block_hash tx_hash : String)
    (evs : List Event) (handle : TxWatchHandle) (status : TransactionStatus)
    (h : (process_watch block_number block_hash tx_hash
        (some (extrinsic_status block_number (some evs))) handle).2
          = some status) :
    ((∃ fs conf, status = TransactionStatus.finalized tx_hash fs block_hash
        none none (some conf))
      ↔ ∃ e ∈ evs, e.pallet_name = "System"
          ∧ e.variant_name = "ExtrinsicSuccess")
    ∧ ((∃ reason, status = TransactionStatus.failed tx_hash reason)
      ↔ ¬ ∃ e ∈ evs, e.pallet_name = "System"
          ∧ e.variant_name = "ExtrinsicSuccess")
    ∧ ((¬ ∃ e ∈ evs, e.pallet_name = "System"
          ∧ e.variant_name = "ExtrinsicSuccess")
        ∧ (∃ e ∈ evs, e.pallet_name = "System"
          ∧ e.variant_name = "ExtrinsicFailed") →
        status = TransactionStatus.failed tx_hash
          ("Extrinsic failed at block " ++ toString block_number))
    ∧ ((¬ ∃ e ∈ evs, e.pallet_name = "System"
          ∧ e.variant_name = "ExtrinsicSuccess")
        ∧ (¬ ∃ e ∈ evs, e.pallet_name = "System"
          ∧ e.variant_name = "ExtrinsicFailed") →
        status = TransactionStatus.failed tx_hash "Unknown error") := by
  obtain ⟨fs, conf, hst⟩ := process_watch_delivered _ _ _ _ _ _ h
  have hsnd : (extrinsic_status block_number (some evs)).2
      = (if ∃ e ∈ evs, e.pallet_name = "System"
            ∧ e.variant_name = "ExtrinsicFailed"
         then some ("Extrinsic failed at block " ++ toString block_number)
         else none) := by
    unfold extrinsic_status
    rw [extrinsic_status_foldl_snd]
  rw [← extrinsic_status_success_iff block_number evs]
  by_cases hs : (extrinsic_status block_number (some evs)).1 = true
  · rw [if_pos hs] at hst
    subst hst
    refine ⟨by simp [hs], by simp [hs], ?_, ?_⟩
    · rintro ⟨hns, -⟩
      exact absurd hs hns
    · rintro ⟨hns, -⟩
      exact absurd hs hns
  · rw [if_neg hs] at hst
    subst hst
    refine ⟨by simp [hs], by simp [hs], ?_, ?_⟩
    · rintro ⟨-, hfail⟩
      rw [hsnd, if_pos hfail]
      rfl
    · rintro ⟨-, hnofail⟩
      rw [hsnd, if_neg hnofail]
      rfl

theorem C2_counterexample :
    (process_watch 5 "0xblock" "0xtx" (some (extrinsic_status 5 (some [])))
        ⟨0, ConfirmationStrategy.Immediate, none⟩).2
      = some (TransactionStatus.failed "0xtx" "Unknown error")
    ∧ ¬ ∃ e ∈ ([] : List Event), e.pallet_name = "System"
        ∧ e.variant_name = "ExtrinsicFailed" :=
  ⟨rfl, by simp⟩

theorem C2_completion_status_witness :
    ((∃ fs conf, TransactionStatus.failed "0xtx"
        ("Extrinsic failed at block " ++ toString 5)
        = TransactionStatus.finalized "0xtx" fs "0xblock" none none (some conf))
      ↔ ∃ e ∈ [Event.mk "System" "ExtrinsicFailed"], e.pallet_name = "System"
          ∧ e.variant_name = "ExtrinsicSuccess")
    ∧ ((∃ reason, TransactionStatus.failed "0xtx"
        ("Extrinsic failed at block " ++ toString 5)
        = TransactionStatus.failed "0xtx" reason)
      ↔ ¬ ∃ e ∈ [Event.mk "System" "ExtrinsicFailed"], e.pallet_name = "System"
          ∧ e.variant_name = "ExtrinsicSuccess")
    ∧ ((¬ ∃ e ∈ [Event.mk "System" "ExtrinsicFailed"], e.pallet_name = "System"
          ∧ e.variant_name = "ExtrinsicSuccess")
        ∧ (∃ e ∈ [Event.mk "System" "ExtrinsicFailed"], e.pallet_name = "System"
          ∧ e.variant_name = "ExtrinsicFailed") →
        TransactionStatus.failed "0xtx" ("Extrinsic failed at block " ++ toString 5)
          = TransactionStatus.failed "0xtx"
              ("Extrinsic failed at block " ++ toString 5))
    ∧ ((¬ ∃ e ∈ [Event.mk "System" "ExtrinsicFailed"], e.pallet_name = "System"
          ∧ e.variant_name = "ExtrinsicSuccess")
        ∧ (¬ ∃ e ∈ [Event.mk "System" "ExtrinsicFailed"], e.pallet_name = "System"
          ∧ e.variant_name = "ExtrinsicFailed") →
        TransactionStatus.failed "0xtx" ("Extrinsic failed at block " ++ toString 5)
          = TransactionStatus.failed "0xtx" "Unknown error") :=
  C2_completion_status 5 "0xblock" "0xtx" [Event.mk "System" "ExtrinsicFailed"]
    ⟨0, ConfirmationStrategy.Immediate, none⟩
    (TransactionStatus.failed "0xtx"
      ("Extrinsic failed at block " ++ toString 5)) rfl

theorem C5_counterexample :
    (cleanup_expired_transactions 1000
        [("0xtx", ⟨0, ConfirmationStrategy.Finalized 60, none⟩)]).2
      = [("0xtx", TransactionStatus.failed "0xtx" "Timeout after 60 seconds")]
    ∧ ("Timeout after 60 seconds" : String) ≠ "timeout after 60 seconds" :=
  ⟨rfl, by decide⟩

theorem C5_cleanup_tick (now c ts : ℕ)
    (pending : List (String × TxWatchHandle)) (p : String × TxWatchHandle)
    (hp : p ∈ pending) :
    watch_timeout_secs ConfirmationStrategy.Immediate = 0
    ∧ watch_timeout_secs (ConfirmationStrategy.Finalized ts) = ts
    ∧ watch_timeout_secs (ConfirmationStrategy.BlockConfirmations c ts) = ts
    ∧ (now - p.2.submitted_at > MAX_WATCH_DURATION →
        p ∉ (cleanup_expired_transactions now pending).1
        ∧ (p.1, TransactionStatus.failed p.1
            ("Timeout after " ++ toString (watch_timeout_secs p.2.strategy)
              ++ " seconds"))
          ∈ (cleanup_expired_transactions now pending).2)
    ∧ (¬ now - p.2.submitted_at > MAX_WATCH_DURATION →
        p ∈ (cleanup_expired_transactions now pending).1) := by
  refine ⟨rfl, rfl, rfl, fun hexp => ⟨?_, ?_⟩, fun hfresh => ?_⟩
  · intro hmem
    rw [cleanup_expired_transactions] at hmem
    simp only [List.mem_filter] at hmem
    rw [Bool.not_eq_true' ] at hmem
    exact absurd hexp (by simpa [is_expired] using hmem.2)
  · rw [cleanup_expired_transactions]
    exact List.mem_map_of_mem _
      (List.mem_filter.mpr ⟨hp, by simpa [is_expired] using hexp⟩)
  · rw [cleanup_expired_transactions]
    exact List.mem_filter.mpr ⟨hp, by simpa [is_expired] using hfresh⟩

theorem C5_cleanup_tick_witness :
    watch_timeout_secs ConfirmationStrategy.Immediate = 0
    ∧ watch_timeout_secs (ConfirmationStrategy.Finalized 60) = 60
    ∧ watch_timeout_secs (ConfirmationStrategy.BlockConfirmations 2 60) = 60
    ∧ (("0xtx", (⟨0, ConfirmationStrategy.Finalized 60, none⟩ : TxWatchHandle))
        ∉ (cleanup_expired_transactions 1000
            [("0xtx", ⟨0, ConfirmationStrategy.Finalized 60, none⟩)]).1
      ∧ ("0xtx", TransactionStatus.failed "0xtx"
          ("Timeout after " ++ toString (watch_timeout_secs
            (ConfirmationStrategy.Finalized 60)) ++ " seconds"))
        ∈ (cleanup_expired_transactions 1000
            [("0xtx", ⟨0, ConfirmationStrategy.Finalized 60, none⟩)]).2) := by
  have h := C5_cleanup_tick 1000 2 60
    [("0xtx", ⟨0, ConfirmationStrategy.Finalized 60, none⟩)]
    ("0xtx", ⟨0, ConfirmationStrategy.Finalized 60, none⟩) (by simp)
  exact ⟨h.1, h.2.1, h.2.2.1, h.2.2.2.1 (by decide)⟩
end ApexSdk
